import Mathlib

/-!
Verification of the DocBox clinic-management backend against its
natural-language specification.

Each section shallowly embeds one part of the Python source
(`src/backend/...`) as executable Lean definitions and proves or refutes
the corresponding specification claim.  Strings are modelled as `List Char`
(a faithful rendering of Python's immutable character sequences), machine
timestamps as integer seconds, and external libraries (the Fernet cipher,
base64, the JWT codec, the LLM) as explicitly parameterised oracles whose
only assumed properties are the contractual ones the source relies on.
-/

namespace DocBox

/-! ## PHI encryption (`security/encryption.py`) -/

/-- FernetCipher models the external `cryptography.fernet.Fernet` object
used by `EncryptionService` and `FieldEncryption`: an encryption map, the
decryption map that inverts it, and the fact that a Fernet token is never
empty (every token carries at least a version byte). -/
structure FernetCipher where
  enc : List Char → List Char
  dec : List Char → List Char
  dec_enc : ∀ m, dec (enc m) = m
  enc_ne : ∀ m, enc m ≠ []

/-- Base64Codec models `base64.b64encode` / `base64.b64decode` from the
Python standard library: decoding inverts encoding, and encoding a
non-empty byte string yields a non-empty result. -/
structure Base64Codec where
  enc : List Char → List Char
  dec : List Char → List Char
  dec_enc : ∀ m, dec (enc m) = m
  enc_ne : ∀ m, m ≠ [] → enc m ≠ []

/-- Embedding of `EncryptionService.encrypt` (encryption.py lines 33-47):
a blank plaintext is returned as the empty string, otherwise the Fernet
ciphertext of the plaintext is base64-wrapped. -/
def EncryptionService.encrypt (f : FernetCipher) (b : Base64Codec)
    (plaintext : List Char) : List Char :=
  if plaintext = [] then [] else b.enc (f.enc plaintext)

/-- Embedding of `EncryptionService.decrypt` (encryption.py lines 49-64):
a blank ciphertext is returned as the empty string, otherwise the base64
wrapper is removed and the Fernet token decrypted. -/
def EncryptionService.decrypt (f : FernetCipher) (b : Base64Codec)
    (ciphertext : List Char) : List Char :=
  if ciphertext = [] then [] else f.dec (b.dec ciphertext)

/-- Embedding of Python's `s.replace(c, "")` for a one-character pattern:
every occurrence of the character is removed. -/
def replaceAllChar (c : Char) (s : List Char) : List Char :=
  s.filter (fun a => a ≠ c)

/-- Embedding of `FieldEncryption.encrypt_ssn` (encryption.py lines
112-119): blank input maps to blank output; otherwise dashes and spaces
are stripped and the cleaned SSN is Fernet-encrypted and base64-wrapped. -/
def FieldEncryption.encrypt_ssn (f : FernetCipher) (b : Base64Codec)
    (ssn : List Char) : List Char :=
  if ssn = [] then []
  else
    let clean_ssn := replaceAllChar ' ' (replaceAllChar '-' ssn)
    b.enc (f.enc clean_ssn)

/-- Embedding of `FieldEncryption.decrypt_ssn` (encryption.py lines
121-129): blank input maps to blank output; otherwise the value is
unwrapped and decrypted, and re-formatted as XXX-XX-XXXX exactly when the
decrypted value has 9 characters. -/
def FieldEncryption.decrypt_ssn (f : FernetCipher) (b : Base64Codec)
    (encrypted_ssn : List Char) : List Char :=
  if encrypted_ssn = [] then []
  else
    let ssn := f.dec (b.dec encrypted_ssn)
    if ssn.length = 9 then
      ssn.take 3 ++ '-' :: ((ssn.drop 3).take 2 ++ '-' :: ssn.drop 5)
    else ssn

/-- Concrete sample SSN "123-45-6789" used by the round-trip property. -/
def sampleSSN : List Char := ['1', '2', '3', '-', '4', '5', '-', '6', '7', '8', '9']

/-- Trivial concrete instance of the Fernet interface, used to witness the
round-trip theorems: prepend a marker character. -/
def markFernet : FernetCipher where
  enc := fun m => 'F' :: m
  dec := fun m => m.tail
  dec_enc := fun _ => rfl
  enc_ne := fun _ h => List.noConfusion h

/-- Trivial concrete instance of the base64 interface, used to witness the
round-trip theorems: the identity codec. -/
def idBase64 : Base64Codec where
  enc := id
  dec := id
  dec_enc := fun _ => rfl
  enc_ne := fun _ h => h

/-! ## RBAC (`security/auth.py`, `models/user.py`) -/

/-- Embedding of the `UserRole` enumeration (user.py lines 17-25).  Note
the member set: there is no STAFF member. -/
inductive UserRole where
  | patient
  | doctor
  | nurse
  | receptionist
  | admin
  | kiosk
  | system
deriving DecidableEq, Repr

/-- Names of the members actually declared on the `UserRole` enumeration
(user.py lines 17-25); attribute access on the enum class resolves against
exactly this set. -/
def userRoleMemberNames : List (String × UserRole) :=
  [("PATIENT", .patient), ("DOCTOR", .doctor), ("NURSE", .nurse),
   ("RECEPTIONIST", .receptionist), ("ADMIN", .admin), ("KIOSK", .kiosk),
   ("SYSTEM", .system)]

/-- Embedding of Python enum attribute access `UserRole.<name>`: returns
the member when declared, and is absent (an AttributeError in Python)
otherwise. -/
def userRoleAttr (name : String) : Option UserRole :=
  (userRoleMemberNames.find? (fun p => p.1 == name)).map Prod.snd

/-- Embedding of `RBACManager.ROLE_PERMISSIONS` (auth.py lines 255-291),
with the dictionary rendered as an association list per role.  The SYSTEM
role has no entry in the source dictionary, so `.get(role, {})` yields the
empty mapping for it. -/
def ROLE_PERMISSIONS : UserRole → List (String × List String)
  | .admin =>
      [("patients", ["create", "read", "update", "delete"]),
       ("appointments", ["create", "read", "update", "delete"]),
       ("users", ["create", "read", "update", "delete"]),
       ("clinics", ["create", "read", "update", "delete"]),
       ("reports", ["read", "export"]),
       ("audit_logs", ["read"])]
  | .doctor =>
      [("patients", ["create", "read", "update"]),
       ("appointments", ["create", "read", "update"]),
       ("medical_records", ["create", "read", "update"]),
       ("prescriptions", ["create", "read", "update"])]
  | .nurse =>
      [("patients", ["read", "update"]),
       ("appointments", ["read", "update"]),
       ("medical_records", ["read", "update"]),
       ("vitals", ["create", "read", "update"])]
  | .receptionist =>
      [("patients", ["create", "read", "update"]),
       ("appointments", ["create", "read", "update", "delete"]),
       ("billing", ["read", "update"])]
  | .patient =>
      [("own_records", ["read"]),
       ("appointments", ["create", "read"]),
       ("messages", ["create", "read"])]
  | .kiosk =>
      [("check_in", ["create"]),
       ("forms", ["create"]),
       ("payments", ["create"])]
  | .system => []

/-- Embedding of `RBACManager.has_permission` (auth.py lines 293-308):
look up the role's permission mapping (empty if absent), then the
resource's action list (empty if absent), and test membership of the
action. -/
def has_permission (role : UserRole) (resource action : String) : Bool :=
  let permissions := ROLE_PERMISSIONS role
  let resource_permissions :=
    ((permissions.find? (fun p => p.1 == resource)).map Prod.snd).getD []
  resource_permissions.contains action

/-! ## Claim C1 -/

/-- C1: for every non-empty string S, decrypting the encryption of S with
the general PHI encryption service returns exactly S; encrypting and
decrypting the empty string both return the empty string; and the SSN
field-level service round-trips "123-45-6789" exactly (punctuation is
stripped before encryption and XXX-XX-XXXX formatting is re-inserted on
decryption since the decrypted value has exactly 9 characters).  Stated
for every Fernet cipher and base64 codec satisfying their library
contracts. -/
theorem c1_encryption_round_trip (f fe : FernetCipher) (b : Base64Codec) :
    (∀ s : List Char, s ≠ [] →
      EncryptionService.decrypt f b (EncryptionService.encrypt f b s) = s)
    ∧ EncryptionService.encrypt f b [] = []
    ∧ EncryptionService.decrypt f b [] = []
    ∧ FieldEncryption.decrypt_ssn fe b
        (FieldEncryption.encrypt_ssn fe b sampleSSN) = sampleSSN := by
  refine ⟨?_, rfl, rfl, ?_⟩
  · intro s hs
    unfold EncryptionService.encrypt EncryptionService.decrypt
    rw [if_neg hs, if_neg (b.enc_ne _ (f.enc_ne s)), b.dec_enc, f.dec_enc]
  · unfold FieldEncryption.encrypt_ssn FieldEncryption.decrypt_ssn
    rw [if_neg (by decide : sampleSSN ≠ [])]
    have hclean : replaceAllChar ' ' (replaceAllChar '-' sampleSSN)
        = ['1', '2', '3', '4', '5', '6', '7', '8', '9'] := by decide
    rw [hclean]
    rw [if_neg (b.enc_ne _ (fe.enc_ne _)), b.dec_enc, fe.dec_enc]
    decide

/-- Witness for C1: the round-trip theorem applied at the concrete marker
cipher, identity base64 codec, and the one-character plaintext "a". -/
theorem c1_encryption_round_trip_witness :
    (['a'] : List Char) ≠ []
    ∧ EncryptionService.decrypt markFernet idBase64
        (EncryptionService.encrypt markFernet idBase64 ['a']) = ['a'] :=
  ⟨by decide,
   (c1_encryption_round_trip markFernet markFernet idBase64).1 ['a'] (by decide)⟩

/-! ## Claim C2 -/

/-- C2 counterexample: the claim asserts that the receptionist role has
every action in create/read/update/delete on the patients resource, but
`has_permission(RECEPTIONIST, "patients", "delete")` is false — the source
table grants only create/read/update on patients. -/
theorem c2_receptionist_counterexample :
    has_permission .receptionist "patients" "delete" = false := by decide

/-- C2 (amended): for the receptionist role, `has_permission` returns true
for resource patients with every action in create/read/update (but not
delete), for resource appointments with every action in
create/read/update/delete, and for resource billing with every action in
read/update. -/
theorem c2_receptionist_permissions :
    (["create", "read", "update"].all
      (fun a => has_permission .receptionist "patients" a) = true)
    ∧ (["create", "read", "update", "delete"].all
      (fun a => has_permission .receptionist "appointments" a) = true)
    ∧ (["read", "update"].all
      (fun a => has_permission .receptionist "billing" a) = true)
    ∧ has_permission .receptionist "patients" "delete" = false := by decide

/-! ## JWT tokens (`security/auth.py`, JWTManager) -/

/-- JWTPayload models the claim set carried by a token issued or decoded
by `JWTManager`; `type` is the embedded type discriminator (absent when
the token was not issued by this system). -/
structure JWTPayload where
  sub : String
  email : String
  exp : Int
  iat : Int
  type : Option String
  role : Option String := none
  clinic_id : Option String := none
deriving DecidableEq, Repr

/-- Token models a bearer token string as presented to `decode_token`:
its parsed payload plus whether it parses as a JWT at all and whether its
signature verifies against the configured shared secret. -/
structure Token where
  payload : JWTPayload
  wellFormed : Bool
  sigValid : Bool
deriving DecidableEq, Repr

/-- Embedding of the external `jose.jwt.decode` call (auth.py lines
172-176): validates token structure, signature, and expiry, raising a
JWTError (rendered as `Except.error`) on any failure. -/
def jwtDecodeLib (now : Int) (t : Token) : Except String JWTPayload :=
  if t.wellFormed = false then .error "JWTError: malformed token"
  else if t.sigValid = false then .error "JWTError: signature verification failed"
  else if t.payload.exp ≤ now then .error "JWTError: token expired"
  else .ok t.payload

/-- Embedding of `JWTManager.decode_token` (auth.py lines 157-179):
delegates to the library and re-raises any JWTError as a ValueError. -/
def decode_token (now : Int) (t : Token) : Except String JWTPayload :=
  match jwtDecodeLib now t with
  | .ok payload => .ok payload
  | .error e => .error ("ValueError: Invalid token: " ++ e)

/-- Embedding of `JWTManager.verify_token` (auth.py lines 181-199):
decode the token, catching the ValueError as an absent result, and
additionally require the embedded type discriminator to equal the
expected token type. -/
def verify_token (now : Int) (t : Token) (token_type : String) : Option JWTPayload :=
  match decode_token now t with
  | .error _ => none
  | .ok payload => if payload.type ≠ some token_type then none else some payload

/-- Embedding of `JWTManager.create_access_token` (auth.py lines 73-116):
issues a well-formed, correctly signed token whose payload carries the
subject, email, role, optional clinic id, expiry now plus the configured
minutes, issue time now, and type discriminator "access". -/
def create_access_token (now expireMinutes : Int) (user_id email role : String)
    (clinic_id : Option String) : Token where
  payload :=
    { sub := user_id, email := email, exp := now + expireMinutes * 60,
      iat := now, type := some "access", role := some role,
      clinic_id := clinic_id }
  wellFormed := true
  sigValid := true

/-! ## Appointments (`models/appointment.py`, `api/routes/appointments.py`) -/

/-- Embedding of the `AppointmentStatus` enumeration (appointment.py
lines 17-26). -/
inductive AppointmentStatus where
  | scheduled
  | confirmed
  | checked_in
  | in_progress
  | completed
  | cancelled
  | no_show
  | rescheduled
deriving DecidableEq, Repr

/-- String value of each `AppointmentStatus` member (the `.value` of the
Python string-enum). -/
def statusValue : AppointmentStatus → String
  | .scheduled => "scheduled"
  | .confirmed => "confirmed"
  | .checked_in => "checked_in"
  | .in_progress => "in_progress"
  | .completed => "completed"
  | .cancelled => "cancelled"
  | .no_show => "no_show"
  | .rescheduled => "rescheduled"

/-- Active status set used by the scheduling-conflict query
(appointments.py lines 162-167). -/
def activeStatuses : List AppointmentStatus :=
  [.scheduled, .confirmed, .checked_in, .in_progress]

/-- Appointment rows as the appointment routes see them: timestamps are
integer seconds, `deleted` renders `deleted_at is not None`. -/
structure Appointment where
  patient_id : Nat := 0
  provider_id : Nat
  scheduled_start : Int
  scheduled_end : Int
  status : AppointmentStatus := .scheduled
  deleted : Bool := false
  cancelled_at : Option Int := none
  cancelled_by_id : Option Nat := none
  updated_at : Int := 0
deriving DecidableEq, Repr

/-- Conflict condition of the `conflict_query` in `create_appointment`
(appointments.py lines 158-172): same provider, status in the active set,
strict interval overlap, and not soft-deleted. -/
def conflictsWith (a : Appointment) (provider : Nat) (new_start new_end : Int) : Prop :=
  a.provider_id = provider ∧ a.status ∈ activeStatuses ∧
    a.scheduled_start < new_end ∧ a.scheduled_end > new_start ∧ a.deleted = false

instance (a : Appointment) (provider : Nat) (ns ne : Int) :
    Decidable (conflictsWith a provider ns ne) :=
  decidable_of_iff
    (a.provider_id = provider ∧ a.status ∈ activeStatuses ∧
      a.scheduled_start < ne ∧ a.scheduled_end > ns ∧ a.deleted = false)
    Iff.rfl

/-- Embedding of the conflict-check-and-insert stage of
`create_appointment` (appointments.py lines 158-184), reached after the
clinic-access, patient and provider lookups have passed: if any existing
appointment conflicts, the request fails with HTTP 409, otherwise the new
appointment row is created with default status scheduled. -/
def create_appointment (existing : List Appointment) (provider : Nat)
    (new_start new_end : Int) : Except Nat Appointment :=
  if existing.any (fun a => decide (conflictsWith a provider new_start new_end)) then
    .error 409
  else
    .ok { provider_id := provider, scheduled_start := new_start,
          scheduled_end := new_end }

/-- Embedding of `Appointment.can_check_in` (appointment.py lines
176-183): false unless the status is exactly scheduled; otherwise the
minutes until the scheduled start (an exact rational, matching Python's
float division of `total_seconds()` by 60 on these inputs) must lie in
[-5, 30]. -/
def can_check_in (status : AppointmentStatus) (scheduled_start now : Int) : Bool :=
  if status ≠ AppointmentStatus.scheduled then false
  else
    let minutes_until : ℚ := ((scheduled_start - now : Int) : ℚ) / 60
    decide (-5 ≤ minutes_until ∧ minutes_until ≤ 30)

/-- Audit metadata recorded by the CANCEL audit log (appointments.py
lines 397-400). -/
structure CancelAudit where
  patient_id : Nat
  original_status : String
deriving DecidableEq, Repr

/-- Embedding of `cancel_appointment` (appointments.py lines 378-401)
after the appointment lookup has succeeded: the status is overwritten to
cancelled and the cancellation timestamp/actor recorded, and only then is
the CANCEL audit metadata built by reading `appointment.status.value` —
i.e. the already-overwritten value. -/
def cancel_appointment (appt : Appointment) (now : Int) (user_id : Nat) :
    Appointment × CancelAudit :=
  let appt' := { appt with
    status := AppointmentStatus.cancelled,
    cancelled_at := some now,
    cancelled_by_id := some user_id,
    updated_at := now }
  (appt', { patient_id := appt'.patient_id,
            original_status := statusValue appt'.status })

/-! ## Claim C3 -/

/-- C3: `verify_token` never raises — for every token, expected type and
evaluation time it returns either an absent result or the token's decoded
payload; it returns the payload exactly when the token is well formed,
its signature is valid, it is unexpired, and its embedded type
discriminator equals the expected type; and a freshly issued access token
(with a positive expiry budget) verifies as type "access" and fails
verification as type "refresh". -/
theorem c3_verify_token_total (t : Token) (ty : String) (now : Int) :
    (verify_token now t ty = none ∨ verify_token now t ty = some t.payload)
    ∧ (verify_token now t ty = some t.payload ↔
        (t.wellFormed = true ∧ t.sigValid = true ∧ now < t.payload.exp
          ∧ t.payload.type = some ty))
    ∧ ∀ (expMin : Int) (uid email role : String) (cid : Option String),
        0 < expMin →
        verify_token now (create_access_token now expMin uid email role cid) "access"
            = some (create_access_token now expMin uid email role cid).payload
        ∧ verify_token now (create_access_token now expMin uid email role cid) "refresh"
            = none := by
  have hv : ∀ ty' : String, verify_token now t ty' =
      if t.wellFormed = false then none
      else if t.sigValid = false then none
      else if t.payload.exp ≤ now then none
      else if t.payload.type ≠ some ty' then none
      else some t.payload := by
    intro ty'
    unfold verify_token decode_token jwtDecodeLib
    rcases hwf : t.wellFormed <;> rcases hsv : t.sigValid <;>
      by_cases hexp : t.payload.exp ≤ now <;>
      by_cases hty : t.payload.type = some ty' <;>
      simp [hwf, hsv, hexp, hty]
  refine ⟨?_, ?_, ?_⟩
  · rw [hv]
    split_ifs <;> simp
  · rw [hv]
    split_ifs with h1 h2 h3 h4
    · simp [h1]
    · simp [h2]
    · simp
      intro _ _
      omega
    · simp
      intro _ _ _
      exact fun h => absurd h h4
    · simp only [not_not] at h4
      simp only [Bool.not_eq_false] at h1 h2
      simp [h1, h2, h4]
      omega
  · intro expMin uid email role cid hpos
    have hexp : ¬ (now + expMin * 60 ≤ now) := by omega
    constructor
    · unfold verify_token decode_token jwtDecodeLib create_access_token
      simp [hexp]
    · unfold verify_token decode_token jwtDecodeLib create_access_token
      simp [hexp]

/-- Witness for C3: the theorem applied to a concrete well-formed,
unexpired access token at time 0, with the fresh-token conjunct
discharged at a 15-minute expiry budget. -/
theorem c3_verify_token_total_witness :
    (0 : Int) < 15
    ∧ verify_token 0 (create_access_token 0 15 "u1" "a@b.c" "doctor" none) "access"
        = some (create_access_token 0 15 "u1" "a@b.c" "doctor" none).payload
    ∧ verify_token 0 (create_access_token 0 15 "u1" "a@b.c" "doctor" none) "refresh"
        = none := by
  refine ⟨by norm_num, ?_⟩
  exact (c3_verify_token_total (create_access_token 0 15 "u1" "a@b.c" "doctor" none)
    "access" 0).2.2 15 "u1" "a@b.c" "doctor" none (by norm_num)

/-! ## Claim C4 -/

/-- Appointment A of the C4 scenario: provider 1, interval [600, 630)
(minutes 10:00-10:30 rendered in seconds from 10:00), status scheduled. -/
def apptA : Appointment :=
  { provider_id := 1, scheduled_start := 600, scheduled_end := 630 }

/-- C4: appointment creation fails with Conflict (409) exactly when some
existing appointment has the same provider, a status in the active set
(scheduled/confirmed/checked_in/in_progress), a strictly overlapping
interval (existing.start < new.end and existing.end > new.start), and is
not soft-deleted; in particular creating [600,630) then [615,645) for the
same provider fails with 409, while the touching interval [630,660)
succeeds. -/
theorem c4_conflict_409 :
    (∀ (existing : List Appointment) (provider : Nat) (ns ne : Int),
      create_appointment existing provider ns ne = .error 409 ↔
        ∃ a ∈ existing, a.provider_id = provider ∧ a.status ∈ activeStatuses
          ∧ a.scheduled_start < ne ∧ a.scheduled_end > ns ∧ a.deleted = false)
    ∧ create_appointment [] 1 600 630 = .ok apptA
    ∧ create_appointment [apptA] 1 615 645 = .error 409
    ∧ create_appointment [apptA] 1 630 660 =
        .ok { provider_id := 1, scheduled_start := 630, scheduled_end := 660 } := by
  refine ⟨?_, by rfl, by rfl, by rfl⟩
  intro existing provider ns ne
  unfold create_appointment
  split_ifs with h
  · simp only [List.any_eq_true, decide_eq_true_eq] at h
    simpa [conflictsWith] using h
  · simp only [List.any_eq_true, decide_eq_true_eq] at h
    push_neg at h
    constructor
    · intro hcontra
      exact absurd hcontra (by simp)
    · intro ⟨a, ha, hc⟩
      exact absurd hc (by simpa [conflictsWith] using h a ha)

/-! ## Claim C5 -/

/-- C5: for an appointment scheduled at T (seconds), `can_check_in` is
true exactly when the status is scheduled and the evaluation time lies in
the closed window [T - 30 minutes, T + 5 minutes]; outside that window,
or for any other status, it is false. -/
theorem c5_check_in_window (status : AppointmentStatus) (T now : Int) :
    can_check_in status T now = true ↔
      (status = AppointmentStatus.scheduled ∧ T - 1800 ≤ now ∧ now ≤ T + 300) := by
  unfold can_check_in
  by_cases hs : status = AppointmentStatus.scheduled
  · rw [if_neg (by simp [hs])]
    simp only [decide_eq_true_eq, hs, true_and]
    have h60 : (0 : ℚ) < 60 := by norm_num
    rw [le_div_iff₀ h60, div_le_iff₀ h60]
    have e1 : ((-5 : ℚ) * 60 ≤ ((T - now : Int) : ℚ)) ↔ (now ≤ T + 300) := by
      rw [show ((-5 : ℚ) * 60) = ((-300 : Int) : ℚ) by norm_num, Int.cast_le]
      omega
    have e2 : (((T - now : Int) : ℚ) ≤ 30 * 60) ↔ (T - 1800 ≤ now) := by
      rw [show ((30 : ℚ) * 60) = ((1800 : Int) : ℚ) by norm_num, Int.cast_le]
      omega
    rw [e1, e2, and_comm]
  · rw [if_pos hs]
    simp [hs]

/-! ## Claim C8 -/

/-- C8: for every cancel operation, the CANCEL audit metadata's
"original_status" field is computed from the appointment status after it
was already overwritten to cancelled, so it equals "cancelled" regardless
of the appointment's prior status — the audit trail never captures the
pre-cancellation status. -/
theorem c8_cancel_audit_logs_overwritten_status
    (appt : Appointment) (now : Int) (user_id : Nat) :
    (cancel_appointment appt now user_id).2.original_status = "cancelled"
    ∧ (cancel_appointment appt now user_id).1.status = AppointmentStatus.cancelled := by
  exact ⟨rfl, rfl⟩

/-! ## Clinic listing (`api/routes/clinics.py`) -/

/-- Clinic rows as the clinic list route sees them. -/
structure Clinic where
  id : Nat
  is_active : Bool
deriving DecidableEq, Repr

/-- Embedding of the access-scoping phase of `list_clinics` (clinics.py
lines 42-50): admins see everything; for any non-admin the active-only
filter is added and then the expression `current_user.role ==
UserRole.STAFF` is evaluated, which requires resolving the attribute
STAFF on the `UserRole` enumeration — absent members surface as an
AttributeError. -/
def list_clinics_scope (role : UserRole) (user_clinic_id : Nat) :
    Except String (Clinic → Bool) :=
  if role = UserRole.admin then .ok (fun _ => true)
  else
    match userRoleAttr "STAFF" with
    | none => .error "AttributeError: STAFF"
    | some staff =>
        if role = staff then
          .ok (fun c => c.is_active && c.id == user_clinic_id)
        else .ok (fun c => c.is_active)

/-- Embedding of the `list_clinics` query result (clinics.py lines
28-88): the scoping filter applied to the clinic table; a scoping error
aborts the request (surfacing as HTTP 500 through the global handler). -/
def list_clinics (role : UserRole) (user_clinic_id : Nat)
    (clinics : List Clinic) : Except String (List Clinic) :=
  match list_clinics_scope role user_clinic_id with
  | .error e => .error e
  | .ok keep => .ok (clinics.filter keep)

/-! ## Suspicious-activity detection (`security/audit.py`) -/

/-- Names bound at module level in `security/audit.py` by its import
block (lines 1-14) and its own declarations: `from datetime import
datetime` binds only `datetime` — `timedelta` is never imported. -/
def auditModuleNames : List String :=
  ["datetime", "Optional", "Dict", "Any", "UUID", "select", "AsyncSession",
   "AuditLog", "LoginAttempt", "AsyncSessionLocal", "AuditLogger",
   "audit_logger"]

/-- Audit rows as `detect_suspicious_activity` reads them. -/
structure AuditRow where
  is_phi_access : Bool
  success : Bool
  ip_address : Option String
  resource_id : Option Nat
  timestamp : Int
deriving DecidableEq, Repr

/-- Return shape of `detect_suspicious_activity`. -/
structure SuspiciousReport where
  is_suspicious : Bool
  phi_accesses : Nat
  failed_actions : Nat
  unique_ips : Nat
  unique_resources : Nat
  time_window_minutes : Int
  total_actions : Nat
deriving DecidableEq, Repr

/-- Embedding of `AuditLogger.detect_suspicious_activity` (audit.py lines
270-322).  Its first statement, `since = datetime.utcnow() -
timedelta(minutes=time_window_minutes)` (line 286), must resolve the name
`timedelta` in the module namespace; since the module never imports it,
the call raises a NameError before reaching the query.  The rest of the
body (window filter, the four counts, and the strictly-greater-than
thresholds) is rendered faithfully on the unreachable branch. -/
def detect_suspicious_activity (rows : List AuditRow) (now : Int)
    (time_window_minutes : Int) : Except String SuspiciousReport :=
  if auditModuleNames.contains "timedelta" = false then
    .error "NameError: name timedelta is not defined"
  else
    let since := now - time_window_minutes * 60
    let logs := rows.filter (fun r => since ≤ r.timestamp)
    let phi_accesses := (logs.filter (fun r => r.is_phi_access)).length
    let failed_actions := (logs.filter (fun r => !r.success)).length
    let unique_ips := ((logs.filterMap (fun r => r.ip_address)).dedup).length
    let unique_resources := ((logs.filterMap (fun r => r.resource_id)).dedup).length
    let is_suspicious :=
      decide (phi_accesses > 50) || decide (failed_actions > 10) ||
      decide (unique_ips > 3) || decide (unique_resources > 100)
    .ok { is_suspicious := is_suspicious, phi_accesses := phi_accesses,
          failed_actions := failed_actions, unique_ips := unique_ips,
          unique_resources := unique_resources,
          time_window_minutes := time_window_minutes,
          total_actions := logs.length }

/-! ## Patient routes module load (`api/routes/patients.py`) -/

/-- Names defined at module level in `security/encryption.py` (lines
17-176): the two classes, the two key-management helpers, and the two
global service instances. -/
def encryptionModuleDefinedNames : List String :=
  ["EncryptionService", "FieldEncryption", "generate_encryption_key",
   "derive_key_from_password", "encryption_service", "field_encryption"]

/-- Names bound in `security/encryption.py` by its import block (lines
6-14). -/
def encryptionModuleImportedNames : List String :=
  ["base64", "Optional", "Fernet", "hashes", "PBKDF2", "default_backend",
   "settings"]

/-- Full module namespace of `security/encryption.py`, against which a
`from security.encryption import <name>` statement resolves. -/
def encryptionModuleNamespace : List String :=
  encryptionModuleImportedNames ++ encryptionModuleDefinedNames

/-- Names requested by `from security.encryption import encrypt_field,
decrypt_field` in `api/routes/patients.py` (line 27). -/
def patientsEncryptionImports : List String :=
  ["encrypt_field", "decrypt_field"]

/-- Embedding of Python from-import resolution for the patient route
module: the module loads only if every requested name is present in the
encryption module's namespace; otherwise loading raises ImportError. -/
def patientsModuleLoads : Bool :=
  patientsEncryptionImports.all (fun n => encryptionModuleNamespace.contains n)

/-- Patient operations exposed by the patient route module (patients.py):
list, create, get-by-id, update, delete, history. -/
def patientEndpoints : List String :=
  ["list", "create", "get_by_id", "update", "delete", "history"]

/-- Availability of a patient operation: an endpoint of the module is
reachable only if it is one of the declared operations and the module
itself loaded. -/
def patientEndpointAvailable (op : String) : Bool :=
  patientsModuleLoads && patientEndpoints.contains op

/-! ## Claim C6 -/

/-- C6: the claim says every authenticated non-admin caller of the clinic
list receives only active clinics, staff callers only their own clinic.
In the code every non-admin request instead evaluates `UserRole.STAFF`,
an attribute the `UserRole` enumeration does not declare, so the request
raises AttributeError (an HTTP 500) and no caller receives the scoped
listing — the spec describes the intent (and the source comment agrees),
making this a code bug. -/
theorem c6_clinic_list_staff_attribute_error :
    userRoleAttr "STAFF" = none
    ∧ ∀ (role : UserRole), role ≠ UserRole.admin →
        ∀ (user_clinic_id : Nat) (clinics : List Clinic),
          list_clinics role user_clinic_id clinics =
            .error "AttributeError: STAFF" := by
  refine ⟨by decide, ?_⟩
  intro role hrole ucid clinics
  unfold list_clinics list_clinics_scope
  rw [if_neg hrole]
  rfl

/-- Witness for C6: the theorem applied to a nurse caller with clinic 1
and an empty clinic table. -/
theorem c6_clinic_list_staff_attribute_error_witness :
    UserRole.nurse ≠ UserRole.admin
    ∧ list_clinics UserRole.nurse 1 [] = .error "AttributeError: STAFF" :=
  ⟨by decide,
   c6_clinic_list_staff_attribute_error.2 UserRole.nurse (by decide) 1 []⟩

/-! ## Claim C7 -/

/-- C7: the claim says `detect_suspicious_activity` returns the four
counts together with a suspicious flag set by the strictly-greater-than
thresholds.  The code never gets there: the module imports only
`datetime` from the datetime package, so the very first statement of the
function raises `NameError: name timedelta is not defined` on every call
— a code bug (the function's own docstring promises the returned dict). -/
theorem c7_detect_suspicious_name_error :
    auditModuleNames.contains "timedelta" = false
    ∧ ∀ (rows : List AuditRow) (now time_window_minutes : Int),
        detect_suspicious_activity rows now time_window_minutes =
          .error "NameError: name timedelta is not defined" := by
  refine ⟨by decide, ?_⟩
  intro rows now w
  rfl

/-! ## Claim C10 -/

/-- C10: the patient route module imports `encrypt_field` and
`decrypt_field` from the encryption module, whose namespace (its imports
plus its six module-level definitions) contains neither name; loading the
patient routes therefore fails, and every patient operation (list,
create, get-by-id, update, delete, history) is unavailable. -/
theorem c10_patient_routes_import_error :
    encryptionModuleNamespace.contains "encrypt_field" = false
    ∧ encryptionModuleNamespace.contains "decrypt_field" = false
    ∧ patientsModuleLoads = false
    ∧ ∀ (op : String), patientEndpointAvailable op = false := by
  refine ⟨by decide, by decide, by decide, ?_⟩
  intro op
  have h : patientsModuleLoads = false := by decide
  simp [patientEndpointAvailable, h]

/-! ## Agentic RAG workflow (`rag/retrieval.py`) -/

/-- RAGOracle packages the external effects of the workflow nodes (LLM
calls and vector search) as arbitrary functions, so every theorem below
holds for every possible sequence of quality-check outcomes. -/
structure RAGOracle where
  decompose : String → List String
  retrieve : List String → List Nat
  verify : String → List Nat → List Nat
  generate : String → List Nat → String
  quality_needs : String → String → Bool
  quality_conf : String → String → ℚ
  refine : String → ℚ → String

/-- Embedding of the `AgentState` TypedDict (retrieval.py lines 20-32),
with documents rendered by their ids. -/
structure AgentState where
  query : String
  decomposed_queries : List String
  retrieved_docs : List Nat
  verified_docs : List Nat
  answer : String
  citations : List Nat
  confidence_score : ℚ
  needs_refinement : Bool
  iteration_count : Nat

/-- Embedding of `_decompose_query` (retrieval.py lines 117-146): store
the LLM's sub-questions (falling back to the original query when nothing
usable is produced) and reset the iteration counter to 0. -/
def decompose_node (o : RAGOracle) (st : AgentState) : AgentState :=
  let sub_queries := o.decompose st.query
  { st with
    decomposed_queries := if sub_queries = [] then [st.query] else sub_queries,
    iteration_count := 0 }

/-- Embedding of `_retrieve_documents` (retrieval.py lines 148-180):
vector search over all current sub-queries. -/
def retrieve_node (o : RAGOracle) (st : AgentState) : AgentState :=
  { st with retrieved_docs := o.retrieve st.decomposed_queries }

/-- Embedding of `_verify_documents` (retrieval.py lines 182-236): the
LLM filters the retrieved documents. -/
def verify_node (o : RAGOracle) (st : AgentState) : AgentState :=
  { st with verified_docs := o.verify st.query st.retrieved_docs }

/-- Embedding of `_generate_answer` (retrieval.py lines 238-280): the LLM
produces the answer from the verified documents and the citations list is
rebuilt from them. -/
def generate_node (o : RAGOracle) (st : AgentState) : AgentState :=
  { st with
    answer := o.generate st.query st.verified_docs,
    citations := st.verified_docs }

/-- Embedding of `_check_quality` (retrieval.py lines 282-318): record
the LLM's assessment and increment the iteration counter by one. -/
def check_quality_node (o : RAGOracle) (st : AgentState) : AgentState :=
  { st with
    confidence_score := o.quality_conf st.query st.answer,
    needs_refinement := o.quality_needs st.query st.answer,
    iteration_count := st.iteration_count + 1 }

/-- Embedding of `_should_refine` (retrieval.py lines 320-331): refine
only if the quality check asked for refinement and the iteration counter
is still strictly below 3. -/
def should_refine (st : AgentState) : Bool :=
  st.needs_refinement && st.iteration_count < 3

/-- Embedding of `_refine_answer` (retrieval.py lines 333-357): append
the LLM's improved query to the sub-query list. -/
def refine_node (o : RAGOracle) (st : AgentState) : AgentState :=
  { st with
    decomposed_queries :=
      st.decomposed_queries ++ [o.refine st.query st.confidence_score] }

/-- Embedding of the compiled LangGraph cycle (retrieval.py lines
97-115): retrieve, verify, generate, check quality; then either take the
refine edge back to retrieve (when `_should_refine` holds) or stop.
Termination is forced by the iteration-counter guard: each pass
increments the counter and the refine edge requires it below 3. -/
def rag_loop (o : RAGOracle) (st : AgentState) : AgentState :=
  if should_refine (check_quality_node o (generate_node o (verify_node o (retrieve_node o st)))) then
    rag_loop o (refine_node o
      (check_quality_node o (generate_node o (verify_node o (retrieve_node o st)))))
  else
    check_quality_node o (generate_node o (verify_node o (retrieve_node o st)))
termination_by 3 - st.iteration_count
decreasing_by
  simp only [should_refine, check_quality_node, generate_node, verify_node,
    retrieve_node, refine_node, Bool.and_eq_true, decide_eq_true_eq] at *
  omega

/-- Embedding of the workflow entry point `query` (retrieval.py lines
359-395 together with the graph wiring): build the initial state, run
decompose, then the retrieve/verify/generate/check cycle. -/
def run_agentic_rag (o : RAGOracle) (question : String) : AgentState :=
  rag_loop o (decompose_node o
    { query := question, decomposed_queries := [], retrieved_docs := [],
      verified_docs := [], answer := "", citations := [],
      confidence_score := 0, needs_refinement := false, iteration_count := 0 })

/-- Invariants of the loop used by claim C9: the query is never rewritten,
the final answer is the one generated from the final verified documents on
the last pass, the counter grew by at least one, and it never exceeds the
cap of 3 once started below it. -/
theorem rag_loop_spec (o : RAGOracle) (st : AgentState) :
    (rag_loop o st).query = st.query
    ∧ (rag_loop o st).answer =
        o.generate st.query (rag_loop o st).verified_docs
    ∧ st.iteration_count + 1 ≤ (rag_loop o st).iteration_count
    ∧ (rag_loop o st).iteration_count ≤ max (st.iteration_count + 1) 3 := by
  have H : ∀ (n : Nat) (st : AgentState), 3 - st.iteration_count ≤ n →
      (rag_loop o st).query = st.query
      ∧ (rag_loop o st).answer =
          o.generate st.query (rag_loop o st).verified_docs
      ∧ st.iteration_count + 1 ≤ (rag_loop o st).iteration_count
      ∧ (rag_loop o st).iteration_count ≤ max (st.iteration_count + 1) 3 := by
    intro n
    induction n with
    | zero =>
        intro st hle
        have hge : 3 ≤ st.iteration_count := by omega
        rw [rag_loop]
        rw [if_neg (by
          simp only [should_refine, check_quality_node, generate_node,
            verify_node, retrieve_node, Bool.and_eq_true, decide_eq_true_eq,
            not_and]
          omega)]
        refine ⟨rfl, rfl, ?_, ?_⟩ <;>
          simp [check_quality_node, generate_node, verify_node, retrieve_node]
    | succ n ihn =>
        intro st hle
        rw [rag_loop]
        by_cases h : should_refine (check_quality_node o (generate_node o
            (verify_node o (retrieve_node o st)))) = true
        · rw [if_pos h]
          have hlt : st.iteration_count + 1 < 3 := by
            simp only [should_refine, check_quality_node, generate_node,
              verify_node, retrieve_node, Bool.and_eq_true,
              decide_eq_true_eq] at h
            omega
          have hq : (refine_node o (check_quality_node o (generate_node o
              (verify_node o (retrieve_node o st))))).query = st.query := by
            simp [refine_node, check_quality_node, generate_node, verify_node,
              retrieve_node]
          have hcount : (refine_node o (check_quality_node o (generate_node o
              (verify_node o (retrieve_node o st))))).iteration_count
                = st.iteration_count + 1 := by
            simp [refine_node, check_quality_node, generate_node, verify_node,
              retrieve_node]
          have ih := ihn (refine_node o (check_quality_node o (generate_node o
            (verify_node o (retrieve_node o st))))) (by rw [hcount]; omega)
          refine ⟨?_, ?_, ?_, ?_⟩
          · rw [ih.1, hq]
          · rw [ih.2.1, hq]
          · have h1 := ih.2.2.1
            rw [hcount] at h1
            omega
          · have h2 := ih.2.2.2
            rw [hcount] at h2
            omega
        · rw [if_neg h]
          refine ⟨rfl, rfl, ?_, ?_⟩ <;>
            simp [check_quality_node, generate_node, verify_node, retrieve_node]
  exact H (3 - st.iteration_count) st le_rfl

/-! ## Claim C9 -/

/-- C9: in the agentic RAG workflow, the refine transition is taken only
when needs-refinement is true and the iteration counter (incremented once
per quality check) is strictly below 3; hence for every run and every
sequence of quality-check outcomes the workflow performs at least one and
at most 3 quality-check/refinement cycles before terminating, and the
returned answer is the last-generated one (the LLM answer over the final
verified document set) regardless of the final quality assessment. -/
theorem c9_rag_refinement_bound (o : RAGOracle) (question : String) :
    (∀ st : AgentState, should_refine st = true ↔
      (st.needs_refinement = true ∧ st.iteration_count < 3))
    ∧ 1 ≤ (run_agentic_rag o question).iteration_count
    ∧ (run_agentic_rag o question).iteration_count ≤ 3
    ∧ (run_agentic_rag o question).answer =
        o.generate question (run_agentic_rag o question).verified_docs := by
  refine ⟨?_, ?_, ?_, ?_⟩
  · intro st
    simp [should_refine]
  · have h := (rag_loop_spec o (decompose_node o
      { query := question, decomposed_queries := [], retrieved_docs := [],
        verified_docs := [], answer := "", citations := [],
        confidence_score := 0, needs_refinement := false,
        iteration_count := 0 })).2.2.1
    simpa [run_agentic_rag, decompose_node] using h
  · have h := (rag_loop_spec o (decompose_node o
      { query := question, decomposed_queries := [], retrieved_docs := [],
        verified_docs := [], answer := "", citations := [],
        confidence_score := 0, needs_refinement := false,
        iteration_count := 0 })).2.2.2
    simpa [run_agentic_rag, decompose_node] using h
  · have h := (rag_loop_spec o (decompose_node o
      { query := question, decomposed_queries := [], retrieved_docs := [],
        verified_docs := [], answer := "", citations := [],
        confidence_score := 0, needs_refinement := false,
        iteration_count := 0 })).2.1
    simpa [run_agentic_rag, decompose_node] using h

end DocBox
